import Mathlib

/-!
Verification of the Flare style-inspector core (`flare-dev`).

Flare is a browser-injected CSS inspector: it tracks per-property edits of a
selected element against a snapshot of its computed style, and renders the
accumulated diff into a textual prompt.  The development below embeds

* the Change Tracker and Prompt Builder (the `useStyleEditor` hook and
  `buildPrompt` utility), whose source is not part of the given material and
  is therefore modelled from the specification, and
* the panel shell logic of `App.tsx` (`initOpen`, `handleOpen`, `handleClose`,
  `handleCopy`) and the Vite plugin, which are translated from the source.

State is embedded by explicit state passing; the browser's local storage is a
key/value map with an availability flag (an unavailable storage throws, which
the embedding renders as the `available := false` case); the clipboard write
is the `Option String` output of the copy handler.
-/

namespace Flare

/-! ## Association-list primitives used by the tracker state -/

/-- Lookup of the first binding of key `p` in an association list
(the embedding of a string-keyed record / `Map`). -/
def alookup (p : String) : List (String × String) → Option String
  | [] => none
  | kv :: rest => if kv.1 = p then some kv.2 else alookup p rest

/-- Remove every binding of key `p` (the embedding of `delete record[p]`). -/
def aremove (p : String) (l : List (String × String)) : List (String × String) :=
  l.filter (fun kv => kv.1 ≠ p)

/-- Set key `p` to value `v` (the embedding of `record[p] = v`). -/
def aset (p v : String) (l : List (String × String)) : List (String × String) :=
  (p, v) :: aremove p l

/-! ## The recognized property list and the Change Tracker -/

/-- Modelled from the spec: the fixed, build-time list of recognized CSS
properties ("layout, spacing, typography, borders, shadows, ~40–60
properties"), in declaration order.  The concrete properties and their
panel order are taken from the controls wired to the editor in `App.tsx`
(Layout, Spacing, Typography, Appearance, Fill & Borders sections). -/
def recognizedProps : List String :=
  [ "display", "flexDirection", "flexWrap", "justifyContent", "alignItems",
    "gap", "flexGrow", "flexShrink", "flexBasis", "alignSelf",
    "gridTemplateColumns", "gridTemplateRows", "columnGap", "rowGap",
    "gridAutoFlow", "width", "height", "minWidth", "maxWidth", "overflow",
    "position", "top", "right", "bottom", "left", "zIndex",
    "paddingTop", "paddingRight", "paddingBottom", "paddingLeft",
    "marginTop", "marginRight", "marginBottom", "marginLeft",
    "fontFamily", "fontWeight", "fontStyle", "fontSize", "lineHeight",
    "letterSpacing", "wordSpacing", "textAlign", "textDecoration",
    "textTransform", "color", "opacity", "cursor",
    "borderRadius", "borderTopLeftRadius", "borderTopRightRadius",
    "borderBottomLeftRadius", "borderBottomRightRadius",
    "backgroundColor", "borderColor", "borderStyle", "borderWidth",
    "borderTopWidth", "borderRightWidth", "borderBottomWidth",
    "borderLeftWidth", "outlineColor", "outlineStyle", "outlineWidth",
    "outlineOffset", "boxShadow" ]

/-- Modelled from the spec: values are compared with the Snapshot "after
normalization", but the specification never defines the normalization;
it is modelled as the identity, so the comparison is plain string
equality on the values as stored. -/
def normalize (v : String) : String := v

/-- The Change Tracker's session state for the selected element: the element's
selector label, the immutable Style Snapshot captured at selection time, the
Edit Set, and the element's inline style overrides applied by the tracker. -/
structure TrackerState where
  label : String
  snapshot : List (String × String)
  edits : List (String × String)
  inlineStyle : List (String × String)
deriving DecidableEq

/-- One derived diff entry: (element label, property, original value, new
value); recomputed from Snapshot + Edit Set, never stored. -/
structure ChangeEntry where
  label : String
  property : String
  original : String
  newValue : String
deriving DecidableEq

/-- The Snapshot value of a property (empty string when the snapshot has no
binding for it). -/
def snapshotValue (s : TrackerState) (p : String) : String :=
  (alookup p s.snapshot).getD ""

/-- Modelled from the spec: `getValue(property)` returns the Edit Set value if
present, else falls back to the Snapshot value, else the empty string. -/
def getValue (s : TrackerState) (p : String) : String :=
  match alookup p s.edits with
  | some v => v
  | none => (alookup p s.snapshot).getD ""

/-- Modelled from the spec: `setValue(property, value)` writes the value into
the Edit Set and mirrors it onto the element's inline style; an unrecognized
property is silently rejected; the empty string clears the override; a value
that normalizes to equal the Snapshot value is removed from the Edit Set (and
the inline override cleared) instead of being stored as a no-op. -/
def setValue (s : TrackerState) (p v : String) : TrackerState :=
  if p ∈ recognizedProps then
    if v = "" ∨ normalize v = normalize (snapshotValue s p) then
      { s with edits := aremove p s.edits, inlineStyle := aremove p s.inlineStyle }
    else
      { s with edits := aset p v s.edits, inlineStyle := aset p v s.inlineStyle }
  else s

/-- Modelled from the spec: `getAllChanges()` diffs the Edit Set against the
Snapshot, producing one Change Entry per edited property, ordered by the
declaration order of the recognized-property list (not insertion order). -/
def getAllChanges (s : TrackerState) : List ChangeEntry :=
  recognizedProps.filterMap (fun p =>
    (alookup p s.edits).map (fun v =>
      { label := s.label, property := p, original := snapshotValue s p,
        newValue := v }))

/-- Modelled from the spec: `resetAll()` clears the Edit Set and removes every
inline style override the tracker applied, restoring the element to its
snapshot appearance. -/
def resetAll (s : TrackerState) : TrackerState :=
  { s with edits := [], inlineStyle := [] }

/-- Modelled from the spec: the aggregate change count driving the UI badge,
recomputed from the Edit Set whenever it changes; modelled as the size of the
Edit Set. -/
def totalChangeCount (s : TrackerState) : Nat :=
  s.edits.length

/-- The tracker state created when an element becomes selected: its snapshot
is captured once and the Edit Set starts empty. -/
def initState (label : String) (snap : List (String × String)) : TrackerState :=
  { label := label, snapshot := snap, edits := [], inlineStyle := [] }

/-- Keys of the Edit Set are pairwise distinct and recognized; this holds in
every reachable tracker state. -/
def KeysWF (s : TrackerState) : Prop :=
  (s.edits.map Prod.fst).Nodup ∧ ∀ kv ∈ s.edits, kv.1 ∈ recognizedProps

/-- No binding of the Edit Set is a no-op edit: no stored value equals the
corresponding Snapshot value after normalization. -/
def NoNoop (s : TrackerState) : Prop :=
  ∀ kv ∈ s.edits, normalize kv.2 ≠ normalize (snapshotValue s kv.1)

/-! ## The Prompt Builder and the copy handler -/

/-- Modelled from the spec: the fixed-format description of one diff entry,
"property: from X to Y". -/
def describeEntry (e : ChangeEntry) : String :=
  e.property ++ ": from " ++ e.original ++ " to " ++ e.newValue

/-- Modelled from the spec: `buildPrompt(entries)` renders the ordered diff
entries into one descriptive text block, one line per entry keyed by the
element label it belongs to, in input order; empty input yields a sentinel
message. -/
def buildPrompt (entries : List ChangeEntry) : String :=
  if entries.length = 0 then "No changes."
  else String.intercalate "\n"
    (entries.map (fun e => e.label ++ ": " ++ describeEntry e))

/-- The copy handler of `App.tsx`: it reads `getAllChanges()`, returns without
writing when the list is empty, and otherwise writes `buildPrompt` of the
entries to the clipboard.  The clipboard write is the first component
(`none` = no write) and the second component is the session state after the
handler runs. -/
def handleCopy (s : TrackerState) : Option String × TrackerState :=
  let entries := getAllChanges s
  if entries.length = 0 then (none, s)
  else (some (buildPrompt entries), s)

/-! ## Local storage, panel open state (`App.tsx`) -/

/-- The browser's local storage: a key/value map together with an availability
flag; an unavailable storage (privacy mode) throws on access. -/
structure Storage where
  available : Bool
  items : List (String × String)
deriving DecidableEq

/-- `localStorage.getItem`: `Except` models the exception thrown when storage
is unavailable; `none` models the `null` returned for an absent key. -/
def getItem (st : Storage) (k : String) : Except Unit (Option String) :=
  if st.available then .ok (alookup k st.items) else .error ()

/-- `localStorage.setItem`, throwing when storage is unavailable. -/
def setItem (st : Storage) (k v : String) : Except Unit Storage :=
  if st.available then .ok { st with items := aset k v st.items } else .error ()

/-- The panel shell's boolean UI state: `expanded` mounts the content and
`isOpen` is the morph target (`open` in the source). -/
structure PanelState where
  expanded : Bool
  isOpen : Bool
deriving DecidableEq

/-- `initOpen` of `App.tsx`: `try { return localStorage.getItem("flare-expanded")
=== "true" } catch { return false }`. -/
def initOpen (st : Storage) : Bool :=
  match getItem st "flare-expanded" with
  | .ok v => v = some "true"
  | .error _ => false

/-- `handleOpen` of `App.tsx`: expands the panel and starts the morph, then
writes `"true"` under `"flare-expanded"` inside `try … catch {}`, so a write
failure leaves the storage unchanged and is otherwise ignored.  The
animation timers only affect `contentReady` and are not part of the model. -/
def handleOpen (st : Storage) (_p : PanelState) : PanelState × Storage :=
  match setItem st "flare-expanded" "true" with
  | .ok st2 => ({ expanded := true, isOpen := true }, st2)
  | .error _ => ({ expanded := true, isOpen := true }, st)

/-- `handleClose` of `App.tsx`: collapses the panel (the morph starts at once
and the 250 ms timer unmounts the content, modelled as completed) and writes
`"false"` under `"flare-expanded"` inside `try … catch {}`. -/
def handleClose (st : Storage) (_p : PanelState) : PanelState × Storage :=
  match setItem st "flare-expanded" "false" with
  | .ok st2 => ({ expanded := false, isOpen := false }, st2)
  | .error _ => ({ expanded := false, isOpen := false }, st)

/-! ## The Vite plugin (`flare-dev/vite`) -/

/-- One HTML tag descriptor returned by the plugin's `transformIndexHtml`
(`{ tag: "script", attrs: { src }, injectTo: "body" }`). -/
structure ScriptTag where
  tag : String
  src : String
  injectTo : String
deriving DecidableEq

/-- A Vite plugin as far as this package uses the interface: its name, the
`apply` condition, and the (argument-independent) result of its
`transformIndexHtml` hook. -/
structure VitePlugin where
  name : String
  apply : String
  transformIndexHtml : List ScriptTag
deriving DecidableEq

/-- The fixed Flare script URL of the plugin source. -/
def SCRIPT_URL : String := "https://unpkg.com/flare-dev/dist/flare.js"

/-- The `flare()` Vite plugin: name `"flare"`, `apply: "serve"`, and an HTML
transform returning a single script tag pointing at `SCRIPT_URL`, injected
into the body. -/
def flare : VitePlugin :=
  { name := "flare", apply := "serve",
    transformIndexHtml := [{ tag := "script", src := SCRIPT_URL, injectTo := "body" }] }

/-- Modelled from the spec: Vite runs a plugin carrying an `apply` condition
only under the matching command (`"serve"` for the dev server, `"build"` for
production builds). -/
def appliesIn (pl : VitePlugin) (command : String) : Bool :=
  pl.apply = command

/-- The tags a plugin injects into the page under a given Vite command:
nothing when the plugin does not apply, otherwise the result of its HTML
transform. -/
def injectedTags (pl : VitePlugin) (command : String) : List ScriptTag :=
  if appliesIn pl command then pl.transformIndexHtml else []

/-! ## Lemmas on the association-list primitives -/

theorem alookup_aremove_self (p : String) (l : List (String × String)) :
    alookup p (aremove p l) = none := by
  induction l with
  | nil => rfl
  | cons kv rest ih =>
    by_cases h : kv.1 = p
    · simpa [aremove, List.filter_cons, h] using ih
    · simpa [aremove, List.filter_cons, h, alookup] using ih

theorem alookup_aremove_ne {q p : String} (h : q ≠ p) (l : List (String × String)) :
    alookup q (aremove p l) = alookup q l := by
  induction l with
  | nil => rfl
  | cons kv rest ih =>
    by_cases hk : kv.1 = p
    · have hpq : p ≠ q := fun hh => h hh.symm
      simpa [aremove, List.filter_cons, hk, alookup, hpq] using ih
    · by_cases hq : kv.1 = q
      · simp [aremove, List.filter_cons, hk, alookup, hq, h]
      · simpa [aremove, List.filter_cons, hk, alookup, hq] using ih

theorem alookup_aset_self (p v : String) (l : List (String × String)) :
    alookup p (aset p v l) = some v := by
  simp [aset, alookup]

theorem alookup_aset_ne {q p : String} (h : q ≠ p) (v : String)
    (l : List (String × String)) :
    alookup q (aset p v l) = alookup q l := by
  have hp : p ≠ q := fun hh => h hh.symm
  simp [aset, alookup, hp, alookup_aremove_ne h]

theorem mem_aremove {kv : String × String} {p : String}
    {l : List (String × String)} (h : kv ∈ aremove p l) : kv ∈ l :=
  (List.mem_filter.mp h).1

theorem mem_aset {kv : String × String} {p v : String}
    {l : List (String × String)} (h : kv ∈ aset p v l) :
    kv = (p, v) ∨ kv ∈ l := by
  rcases List.mem_cons.mp h with h' | h'
  · exact Or.inl h'
  · exact Or.inr (mem_aremove h')

theorem alookup_isSome_iff (p : String) (l : List (String × String)) :
    (alookup p l).isSome = true ↔ p ∈ l.map Prod.fst := by
  induction l with
  | nil => simp [alookup]
  | cons kv rest ih =>
    by_cases h : kv.1 = p
    · simp [alookup, h]
    · have h2 : ¬(p = kv.1) := fun hh => h hh.symm
      simp [alookup, h, h2, ih]

/-! ## Structural lemmas on the tracker operations -/

theorem setValue_snapshot (s : TrackerState) (p v : String) :
    (setValue s p v).snapshot = s.snapshot := by
  unfold setValue
  split
  · split <;> rfl
  · rfl

theorem setValue_label (s : TrackerState) (p v : String) :
    (setValue s p v).label = s.label := by
  unfold setValue
  split
  · split <;> rfl
  · rfl

theorem setValue_snapshotValue (s : TrackerState) (p v q : String) :
    snapshotValue (setValue s p v) q = snapshotValue s q := by
  unfold snapshotValue
  rw [setValue_snapshot]

theorem edits_setValue_ne (s : TrackerState) {r p : String} (h : r ≠ p)
    (v : String) :
    alookup r (setValue s p v).edits = alookup r s.edits := by
  unfold setValue
  split
  · split
    · simpa using alookup_aremove_ne h s.edits
    · simpa using alookup_aset_ne h v s.edits
  · rfl

theorem edits_setValue_self (s : TrackerState) (p v : String)
    (hp : p ∈ recognizedProps) :
    alookup p (setValue s p v).edits =
      if v = "" ∨ normalize v = normalize (snapshotValue s p) then none
      else some v := by
  unfold setValue
  rw [if_pos hp]
  split
  · simpa using alookup_aremove_self p s.edits
  · simpa using alookup_aset_self p v s.edits

theorem inlineStyle_setValue_self (s : TrackerState) (p v : String)
    (hp : p ∈ recognizedProps) :
    alookup p (setValue s p v).inlineStyle =
      if v = "" ∨ normalize v = normalize (snapshotValue s p) then none
      else some v := by
  unfold setValue
  rw [if_pos hp]
  split
  · simpa using alookup_aremove_self p s.inlineStyle
  · simpa using alookup_aset_self p v s.inlineStyle

theorem edits_setValue_mem (s : TrackerState) (p v : String)
    {kv : String × String} (h : kv ∈ (setValue s p v).edits) :
    kv ∈ s.edits ∨
      (kv = (p, v) ∧ ¬(v = "" ∨ normalize v = normalize (snapshotValue s p))) := by
  unfold setValue at h
  split at h
  · split at h
    · exact Or.inl (mem_aremove h)
    · rcases mem_aset h with h' | h'
      · rename_i hcond
        exact Or.inr ⟨h', hcond⟩
      · exact Or.inl h'
  · exact Or.inl h

theorem setValue_not_recognized (s : TrackerState) {p : String}
    (hp : p ∉ recognizedProps) (v : String) : setValue s p v = s := by
  unfold setValue
  rw [if_neg hp]

/-! ## Lemmas on `getAllChanges` -/

theorem recognizedProps_nodup : recognizedProps.Nodup := by decide

theorem getAllChanges_map_property (s : TrackerState) :
    (getAllChanges s).map ChangeEntry.property =
      recognizedProps.filter (fun p => (alookup p s.edits).isSome) := by
  unfold getAllChanges
  generalize recognizedProps = l
  induction l with
  | nil => rfl
  | cons p rest ih =>
    cases h : alookup p s.edits <;>
      simp [List.filterMap_cons, List.filter_cons, h, ih]

theorem property_mem_getAllChanges {s : TrackerState} {e : ChangeEntry}
    (h : e ∈ getAllChanges s) :
    e.property ∈ recognizedProps ∧
      alookup e.property s.edits = some e.newValue ∧
      e.label = s.label ∧ e.original = snapshotValue s e.property := by
  unfold getAllChanges at h
  rcases List.mem_filterMap.mp h with ⟨p, hp, hpe⟩
  cases hq : alookup p s.edits with
  | none => rw [hq] at hpe; simp at hpe
  | some v =>
    rw [hq] at hpe
    simp only [Option.map_some'] at hpe
    rcases Option.some.inj hpe with rfl
    exact ⟨hp, hq, rfl, rfl⟩

theorem getAllChanges_ext {s t : TrackerState} (hl : s.label = t.label)
    (hsnap : ∀ p, alookup p s.snapshot = alookup p t.snapshot)
    (hed : ∀ p, alookup p s.edits = alookup p t.edits) :
    getAllChanges s = getAllChanges t := by
  unfold getAllChanges
  apply List.filterMap_congr
  intro p _
  have hsv : snapshotValue s p = snapshotValue t p := by
    unfold snapshotValue
    rw [hsnap p]
  rw [hed p, hl, hsv]

/-! ## Claim theorems -/

/-- C2: for every recognized property P and value v, `setValue(P, v)` with v
normalizing to the Snapshot value of P leaves no Edit Set entry for P and
clears the inline override for P; the no-no-op invariant of the Edit Set is
preserved, and `getAllChanges()` contains no entry for P. -/
theorem setValue_prunes_noop (s : TrackerState) (p v : String)
    (hp : p ∈ recognizedProps)
    (hv : normalize v = normalize (snapshotValue s p))
    (hs : NoNoop s) :
    alookup p (setValue s p v).edits = none ∧
    alookup p (setValue s p v).inlineStyle = none ∧
    NoNoop (setValue s p v) ∧
    ∀ e ∈ getAllChanges (setValue s p v), e.property ≠ p := by
  have hcond : v = "" ∨ normalize v = normalize (snapshotValue s p) := Or.inr hv
  have h1 : alookup p (setValue s p v).edits = none := by
    rw [edits_setValue_self s p v hp, if_pos hcond]
  refine ⟨h1, ?_, ?_, ?_⟩
  · rw [inlineStyle_setValue_self s p v hp, if_pos hcond]
  · intro kv hkv
    rcases edits_setValue_mem s p v hkv with hmem | ⟨_, habs⟩
    · rw [setValue_snapshotValue]
      exact hs kv hmem
    · exact absurd hcond habs
  · intro e he hep
    rcases property_mem_getAllChanges he with ⟨_, hsome, _, _⟩
    rw [hep, h1] at hsome
    exact Option.noConfusion hsome

/-- C3: `getAllChanges()` lists properties in the declaration order of the
fixed recognized-property list: its property sequence is a sublist of that
list, the output depends only on the contents of the Edit Set and Snapshot
(not on insertion order), and two edits of distinct properties commute. -/
theorem getAllChanges_declaration_order (s : TrackerState) :
    ((getAllChanges s).map ChangeEntry.property).Sublist recognizedProps ∧
    (∀ t : TrackerState, s.label = t.label →
      (∀ p, alookup p s.snapshot = alookup p t.snapshot) →
      (∀ p, alookup p s.edits = alookup p t.edits) →
      getAllChanges s = getAllChanges t) ∧
    (∀ p q v w, p ≠ q →
      getAllChanges (setValue (setValue s p v) q w) =
        getAllChanges (setValue (setValue s q w) p v)) := by
  refine ⟨?_, ?_, ?_⟩
  · rw [getAllChanges_map_property]
    exact List.filter_sublist _
  · intro t hl hsnap hed
    exact getAllChanges_ext hl hsnap hed
  · intro p q v w hpq
    apply getAllChanges_ext
    · rw [setValue_label, setValue_label, setValue_label, setValue_label]
    · intro r
      rw [setValue_snapshot, setValue_snapshot, setValue_snapshot,
        setValue_snapshot]
    · intro r
      by_cases hrp : r = p
      · subst hrp
        rw [edits_setValue_ne _ hpq w]
        by_cases hp : r ∈ recognizedProps
        · rw [edits_setValue_self s r v hp,
            edits_setValue_self (setValue s q w) r v hp,
            setValue_snapshotValue]
        · rw [setValue_not_recognized s hp v,
            setValue_not_recognized (setValue s q w) hp v,
            edits_setValue_ne _ hpq w]
      · by_cases hrq : r = q
        · subst hrq
          have hqp : r ≠ p := fun hh => hpq hh.symm
          rw [edits_setValue_ne _ hqp v]
          by_cases hq : r ∈ recognizedProps
          · rw [edits_setValue_self s r w hq,
              edits_setValue_self (setValue s p v) r w hq,
              setValue_snapshotValue]
          · rw [setValue_not_recognized s hq w,
              setValue_not_recognized (setValue s p v) hq w,
              edits_setValue_ne _ hqp v]
        · rw [edits_setValue_ne _ hrq w, edits_setValue_ne _ hrp v,
            edits_setValue_ne _ hrp v, edits_setValue_ne _ hrq w]

/-- C5: `getValue(P)` returns the Edit Set value for P when one is present,
otherwise the Snapshot value for P when one is present, otherwise the empty
string. -/
theorem getValue_precedence (s : TrackerState) (p : String) :
    (∀ v, alookup p s.edits = some v → getValue s p = v) ∧
    (alookup p s.edits = none →
      ∀ w, alookup p s.snapshot = some w → getValue s p = w) ∧
    (alookup p s.edits = none → alookup p s.snapshot = none →
      getValue s p = "") := by
  refine ⟨?_, ?_, ?_⟩
  · intro v hv
    unfold getValue
    rw [hv]
  · intro he w hw
    unfold getValue
    rw [he, hw]
    rfl
  · intro he hw
    unfold getValue
    rw [he, hw]
    rfl

/-- C6: `resetAll()` is idempotent, leaves `getAllChanges()` empty, and makes
`getValue` agree with the Snapshot value on every property; being a total
function of the state it cannot fail when nothing was edited. -/
theorem resetAll_idempotent (s : TrackerState) :
    resetAll (resetAll s) = resetAll s ∧
    getAllChanges (resetAll s) = [] ∧
    ∀ p, getValue (resetAll s) p = snapshotValue s p := by
  refine ⟨rfl, ?_, fun p => rfl⟩
  unfold getAllChanges
  apply List.filterMap_eq_nil_iff.mpr
  intro p _
  rfl

/-- C7: the Prompt Builder is deterministic — equal entry sequences produce
identical output strings — and in the state-passing embedding the copy
handler that invokes it returns the session state unchanged (no side effect
on the session). -/
theorem buildPrompt_deterministic :
    (∀ e₁ e₂ : List ChangeEntry, e₁ = e₂ → buildPrompt e₁ = buildPrompt e₂) ∧
    ∀ s : TrackerState, (handleCopy s).2 = s := by
  constructor
  · intro e₁ e₂ h
    rw [h]
  · intro s
    show (if (getAllChanges s).length = 0 then ((none : Option String), s)
      else (some (buildPrompt (getAllChanges s)), s)).2 = s
    split <;> rfl

/-- C1: the Copy handler performs no clipboard write when `getAllChanges()`
is empty, and otherwise writes exactly `buildPrompt` of the returned
entries. -/
theorem handleCopy_empty_noop (s : TrackerState) :
    (getAllChanges s = [] → (handleCopy s).1 = none) ∧
    (getAllChanges s ≠ [] →
      (handleCopy s).1 = some (buildPrompt (getAllChanges s))) := by
  constructor
  · intro h
    unfold handleCopy
    rw [h]
    rfl
  · intro h
    unfold handleCopy
    rw [if_neg (fun hl => h (List.eq_nil_of_length_eq_zero hl))]

theorem keys_aremove_nodup (p : String) {l : List (String × String)}
    (h : (l.map Prod.fst).Nodup) : ((aremove p l).map Prod.fst).Nodup :=
  List.Nodup.sublist ((List.filter_sublist l).map Prod.fst) h

theorem not_mem_keys_aremove (p : String) (l : List (String × String)) :
    p ∉ (aremove p l).map Prod.fst := by
  intro h
  have := (alookup_isSome_iff p (aremove p l)).mpr h
  rw [alookup_aremove_self] at this
  exact Bool.noConfusion this

theorem keysWF_setValue (s : TrackerState) (p v : String) (h : KeysWF s) :
    KeysWF (setValue s p v) := by
  obtain ⟨hnd, hsub⟩ := h
  unfold setValue
  split
  · rename_i hp
    split
    · exact ⟨keys_aremove_nodup p hnd, fun kv hkv => hsub kv (mem_aremove hkv)⟩
    · refine ⟨?_, ?_⟩
      · show (((p, v) :: aremove p s.edits).map Prod.fst).Nodup
        rw [List.map_cons]
        exact List.Nodup.cons (not_mem_keys_aremove p s.edits)
          (keys_aremove_nodup p hnd)
      · intro kv hkv
        rcases mem_aset hkv with h' | h'
        · rw [h']
          exact hp
        · exact hsub kv h'
  · exact ⟨hnd, hsub⟩

/-- C8: under the key well-formedness that every reachable tracker state
enjoys (established for the initial state and preserved by `setValue` and
`resetAll`), `totalChangeCount` equals the number of entries
`getAllChanges()` returns; with zero edits made it is 0. -/
theorem totalChangeCount_counts_changes (s : TrackerState) (p v : String)
    (lbl : String) (snap : List (String × String)) :
    (KeysWF s → totalChangeCount s = (getAllChanges s).length) ∧
    KeysWF (initState lbl snap) ∧
    totalChangeCount (initState lbl snap) = 0 ∧
    (KeysWF s → KeysWF (setValue s p v)) ∧
    (KeysWF s → KeysWF (resetAll s)) := by
  refine ⟨?_, ⟨List.Pairwise.nil, fun kv hkv => absurd hkv (List.not_mem_nil kv)⟩,
    rfl, keysWF_setValue s p v, fun _ => ⟨List.Pairwise.nil,
      fun kv hkv => absurd hkv (List.not_mem_nil kv)⟩⟩
  intro hwf
  obtain ⟨hnd, hsub⟩ := hwf
  have hlen : (getAllChanges s).length =
      (recognizedProps.filter (fun q => (alookup q s.edits).isSome)).length := by
    rw [← getAllChanges_map_property, List.length_map]
  have hmem : ∀ a, a ∈ recognizedProps.filter
      (fun q => (alookup q s.edits).isSome) ↔ a ∈ s.edits.map Prod.fst := by
    intro a
    rw [List.mem_filter]
    constructor
    · intro h'
      exact (alookup_isSome_iff a s.edits).mp h'.2
    · intro h'
      refine ⟨?_, (alookup_isSome_iff a s.edits).mpr h'⟩
      rcases List.mem_map.mp h' with ⟨kv, hkv, rfl⟩
      exact hsub kv hkv
  have hperm : List.Perm
      (recognizedProps.filter (fun q => (alookup q s.edits).isSome))
      (s.edits.map Prod.fst) :=
    (List.perm_ext_iff_of_nodup (recognizedProps_nodup.filter _) hnd).mpr hmem
  unfold totalChangeCount
  rw [hlen, hperm.length_eq, List.length_map]

theorem setItem_available {st : Storage} (h : st.available = true) (k v : String) :
    setItem st k v = .ok { st with items := aset k v st.items } := by
  unfold setItem
  rw [if_pos h]

theorem setItem_unavailable {st : Storage} (h : st.available = false) (k v : String) :
    setItem st k v = .error () := by
  unfold setItem
  rw [h]
  rfl

/-- C4: at startup the panel is expanded exactly when the stored key holds
"true", an unavailable storage being ignored with the collapsed default;
opening expands and writes "true", closing collapses and writes "false" to
the same key, and when the storage is unavailable the write failure is
swallowed, both handlers still returning (they never raise). -/
theorem panel_persistence (st : Storage) (p : PanelState) :
    (st.available = true →
      (initOpen st = true ↔ alookup "flare-expanded" st.items = some "true")) ∧
    (st.available = false → initOpen st = false) ∧
    (handleOpen st p).1.expanded = true ∧
    (handleClose st p).1.expanded = false ∧
    (st.available = true →
      alookup "flare-expanded" (handleOpen st p).2.items = some "true" ∧
      alookup "flare-expanded" (handleClose st p).2.items = some "false") ∧
    (st.available = false →
      (handleOpen st p).2 = st ∧ (handleClose st p).2 = st) := by
  refine ⟨?_, ?_, ?_, ?_, ?_, ?_⟩
  · intro h
    unfold initOpen getItem
    rw [if_pos h]
    simp
  · intro h
    unfold initOpen getItem
    rw [h]
    rfl
  · cases hsi : setItem st "flare-expanded" "true" with
    | ok st2 => unfold handleOpen; rw [hsi]
    | error e => unfold handleOpen; rw [hsi]
  · cases hsi : setItem st "flare-expanded" "false" with
    | ok st2 => unfold handleClose; rw [hsi]
    | error e => unfold handleClose; rw [hsi]
  · intro h
    constructor
    · unfold handleOpen
      rw [setItem_available h]
      exact alookup_aset_self _ _ _
    · unfold handleClose
      rw [setItem_available h]
      exact alookup_aset_self _ _ _
  · intro h
    constructor
    · unfold handleOpen
      rw [setItem_unavailable h]
    · unfold handleClose
      rw [setItem_unavailable h]

/-- C10: `initOpen` starts the panel expanded only on the exact stored string
"true": the expanded start is equivalent to an available storage holding
exactly "true" under "flare-expanded"; any other stored string, an absent
key, or an unavailable (throwing) storage yields the collapsed start. -/
theorem initOpen_strict_true (st : Storage) :
    (initOpen st = true ↔
      st.available = true ∧ alookup "flare-expanded" st.items = some "true") ∧
    (∀ v, v ≠ "true" → alookup "flare-expanded" st.items = some v →
      initOpen st = false) ∧
    (alookup "flare-expanded" st.items = none → initOpen st = false) ∧
    (st.available = false → initOpen st = false) := by
  have hfalse : st.available = false → initOpen st = false := by
    intro h
    unfold initOpen getItem
    rw [h]
    rfl
  refine ⟨?_, ?_, ?_, hfalse⟩
  · cases hb : st.available with
    | true =>
      unfold initOpen getItem
      rw [if_pos hb]
      simp
    | false =>
      rw [hfalse hb]
      simp [hb]
  · intro v hv hsv
    cases hb : st.available with
    | true =>
      unfold initOpen getItem
      rw [if_pos hb, hsv]
      simpa using hv
    | false => exact hfalse hb
  · intro hnone
    cases hb : st.available with
    | true =>
      unfold initOpen getItem
      rw [if_pos hb, hnone]
      rfl
    | false => exact hfalse hb

/-- C9: the Vite plugin applies exclusively in serve (dev) mode; when applied
its HTML transform yields exactly one script tag, whose src is the fixed
Flare script URL, injected into the document body; under any other command —
in particular a production build — nothing is injected. -/
theorem flare_plugin_dev_only :
    flare.apply = "serve" ∧
    injectedTags flare "serve" =
      [{ tag := "script", src := SCRIPT_URL, injectTo := "body" }] ∧
    injectedTags flare "build" = [] ∧
    (∀ c, c ≠ "serve" → injectedTags flare c = []) ∧
    flare.transformIndexHtml.length = 1 := by
  refine ⟨rfl, by decide, by decide, ?_, rfl⟩
  intro c hc
  unfold injectedTags
  rw [if_neg]
  intro habs
  have h1 : flare.apply = c := of_decide_eq_true habs
  exact hc (h1.symm.trans rfl)

/-! ## Concrete session states used by the witnesses -/

/-- A freshly selected element with no edits. -/
def exFresh : TrackerState := initState "div.empty" [("display", "block")]

/-- An element whose opacity (originally "1") has been edited to "0.5". -/
def exOpacity : TrackerState :=
  { label := "div.card", snapshot := [("opacity", "1")],
    edits := [("opacity", "0.5")], inlineStyle := [("opacity", "0.5")] }

/-- A freshly selected element, about to receive the two edits of the
padding/border scenario. -/
def exHero : TrackerState :=
  initState "section.hero" [("paddingTop", "0px"), ("borderColor", "rgb(0, 0, 0)")]

/-- An element whose display (originally "block") has been edited to "flex". -/
def exNav : TrackerState :=
  { label := "div.nav", snapshot := [("display", "block")],
    edits := [("display", "flex")], inlineStyle := [("display", "flex")] }

/-- An element with two pending edits. -/
def exTwoEdits : TrackerState :=
  { label := "p.text", snapshot := [("color", "rgb(0, 0, 0)"), ("width", "50px")],
    edits := [("color", "rgb(255, 0, 0)"), ("width", "10px")],
    inlineStyle := [("color", "rgb(255, 0, 0)"), ("width", "10px")] }

/-- An available storage with no stored keys. -/
def exStorage : Storage := { available := true, items := [] }

/-- An available storage holding the string "false" under the panel key. -/
def exStorageFalse : Storage :=
  { available := true, items := [("flare-expanded", "false")] }

/-- The collapsed panel state. -/
def exPanel : PanelState := { expanded := false, isOpen := false }

/-! ## Witnesses -/

/-- Witness for C1: on a state with no changes the copy handler writes
nothing, and on a state with one change it writes the built prompt. -/
theorem handleCopy_empty_noop_witness :
    (handleCopy exFresh).1 = none ∧
    (handleCopy exNav).1 = some (buildPrompt (getAllChanges exNav)) :=
  ⟨(handleCopy_empty_noop exFresh).1 (by decide),
    (handleCopy_empty_noop exNav).2 (by decide)⟩

/-- Witness for C2: editing opacity back to its snapshot value "1" leaves no
Edit Set entry and no inline override for it. -/
theorem setValue_prunes_noop_witness :
    alookup "opacity" (setValue exOpacity "opacity" "1").edits = none ∧
    alookup "opacity" (setValue exOpacity "opacity" "1").inlineStyle = none :=
  ⟨(setValue_prunes_noop exOpacity "opacity" "1" (by decide) (by decide)
      (by unfold NoNoop; decide)).1,
    (setValue_prunes_noop exOpacity "opacity" "1" (by decide) (by decide)
      (by unfold NoNoop; decide)).2.1⟩

/-- Witness for C3: editing paddingTop then borderColor yields the same
change list as editing them in the opposite order. -/
theorem getAllChanges_declaration_order_witness :
    getAllChanges
        (setValue (setValue exHero "paddingTop" "12px") "borderColor" "#ff0000") =
      getAllChanges
        (setValue (setValue exHero "borderColor" "#ff0000") "paddingTop" "12px") :=
  (getAllChanges_declaration_order exHero).2.2 "paddingTop" "borderColor"
    "12px" "#ff0000" (by decide)

/-- Witness for C4: opening the panel against an available empty storage
stores "true" under the panel key. -/
theorem panel_persistence_witness :
    alookup "flare-expanded" (handleOpen exStorage exPanel).2.items =
      some "true" :=
  ((panel_persistence exStorage exPanel).2.2.2.2.1 (by decide)).1

/-- Witness for C5: with a pending display edit, `getValue` returns the
edited value. -/
theorem getValue_precedence_witness : getValue exNav "display" = "flex" :=
  (getValue_precedence exNav "display").1 "flex" (by decide)

/-- Witness for C7: the prompt built from a concrete entry list twice is the
same string. -/
theorem buildPrompt_deterministic_witness :
    buildPrompt (getAllChanges exNav) = buildPrompt (getAllChanges exNav) :=
  buildPrompt_deterministic.1 (getAllChanges exNav) (getAllChanges exNav) rfl

/-- Witness for C8: on a well-formed state with two pending edits the badge
count equals the length of the change list. -/
theorem totalChangeCount_counts_changes_witness :
    totalChangeCount exTwoEdits = (getAllChanges exTwoEdits).length :=
  (totalChangeCount_counts_changes exTwoEdits "display" "flex" "div" []).1
    (by unfold KeysWF; decide)

/-- Witness for C9: under a command other than "serve" the plugin injects
nothing. -/
theorem flare_plugin_dev_only_witness : injectedTags flare "production" = [] :=
  flare_plugin_dev_only.2.2.2.1 "production" (by decide)

/-- Witness for C10: a stored "false" yields the collapsed initial state. -/
theorem initOpen_strict_true_witness : initOpen exStorageFalse = false :=
  (initOpen_strict_true exStorageFalse).2.1 "false" (by decide) (by decide)

end Flare
